import Mathlib

set_option maxHeartbeats 1000000
set_option linter.unusedTactic false
set_option maxRecDepth 4000

/- Shallow embedding of src/platform.ts from homebridge-lutron-caseta-leap.

   The orchestrator class LutronCasetaLeap is modelled as a collection of pure
   functions over explicit state.  The AccessoryIndex (the accessories Map of
   the class) is an association list from UUID strings to accessory records.
   External collaborators (the homebridge API, the per-type accessory handlers,
   the bridge manager) are modelled through an Env record of functions plus an
   explicit effect trace: every factory call, handler invocation, registration
   attempt and log line performed by the source is recorded in an Effects
   record, and exceptions are represented by an explicit thrown constructor. -/

/- Data model (section 3 of the design): a device record as returned by the
   bridge inventory query. -/
structure DeviceDefinition where
  DeviceType : String
  SerialNumber : String
  FullyQualifiedName : List String
deriving DecidableEq, Repr

/- An accessory handle as created by new this.api.platformAccessory(fullName,
   uuid) with the context fields set right after creation (platform.ts lines
   244-247). -/
structure PlatformAccessory where
  name : String
  UUID : String
  context_device : DeviceDefinition
  context_bridgeID : String
deriving DecidableEq, Repr

inductive ClickSpeed where
  | quick
  | default
  | relaxed
deriving DecidableEq, Repr

/- GlobalOptions, platform.ts lines 33-38. -/
structure GlobalOptions where
  filterPico : Bool
  filterBlinds : Bool
  clickSpeedLong : ClickSpeed
  clickSpeedDouble : ClickSpeed
deriving DecidableEq, Repr

/- Partial options as they appear in config.options; Object.assign with the
   defaults is modelled by optionsFromConfig below (platform.ts lines 113-123). -/
structure PartialOptions where
  filterPico : Option Bool
  filterBlinds : Option Bool
  clickSpeedLong : Option ClickSpeed
  clickSpeedDouble : Option ClickSpeed
deriving DecidableEq, Repr

def optionsFromConfig (po : PartialOptions) : GlobalOptions :=
  { filterPico := po.filterPico.getD false
    filterBlinds := po.filterBlinds.getD false
    clickSpeedLong := po.clickSpeedLong.getD ClickSpeed.default
    clickSpeedDouble := po.clickSpeedDouble.getD ClickSpeed.default }

/- BridgeAuthEntry, platform.ts lines 40-45. -/
structure BridgeAuthEntry where
  bridgeid : String
  ca : String
  key : String
  cert : String
deriving DecidableEq, Repr

/- A record of one invocation of a per-type accessory handler constructor
   (SerenaTiltOnlyWoodBlinds, PicoRemote or OccupancySensor).  The PicoRemote
   constructor additionally receives the GlobalOptions record, recorded in
   passedOptions. -/
structure HandlerCall where
  kind : String
  uuid : String
  passedOptions : Option GlobalOptions
deriving DecidableEq, Repr

/- The observable effect trace of a code fragment: log lines by level,
   accessory factory calls (created), handler constructor invocations and
   registerPlatformAccessories calls (registrations, recorded even when the
   call throws). -/
structure Effects where
  infos : List String := []
  warns : List String := []
  errors : List String := []
  created : List PlatformAccessory := []
  handlers : List HandlerCall := []
  registrations : List PlatformAccessory := []
deriving DecidableEq, Repr

def Effects.append (a b : Effects) : Effects :=
  { infos := a.infos ++ b.infos
    warns := a.warns ++ b.warns
    errors := a.errors ++ b.errors
    created := a.created ++ b.created
    handlers := a.handlers ++ b.handlers
    registrations := a.registrations ++ b.registrations }

/- The AccessoryIndex: the accessories Map of the class, as an association
   list keyed by UUID string.  hasKey and setKey mirror Map.has and Map.set. -/
abbrev AccessoryIndex := List (String × PlatformAccessory)

def hasKey {α : Type} (m : List (String × α)) (k : String) : Bool :=
  m.any (fun p => p.1 == k)

def setKey {α : Type} (m : List (String × α)) (k : String) (v : α) : List (String × α) :=
  match m with
  | [] => [(k, v)]
  | p :: rest => if p.1 == k then (k, v) :: rest else p :: setKey rest k v

/- The environment of external collaborators:
   genUuid models this.api.hap.uuid.generate (a deterministic function of the
   serial number string); registerOk tells whether a
   registerPlatformAccessories call for a given uuid succeeds or throws;
   ctorThrows tells whether the synchronous per-type handler construction for
   a given device throws; initThrows tells whether the asynchronous
   OccupancySensor initialization rejects (awaited only in processDevice). -/
structure Env where
  genUuid : String → String
  registerOk : String → Bool
  ctorThrows : DeviceDefinition → Bool
  initThrows : DeviceDefinition → Bool

/- Result of one per-device processing step: either normal completion with an
   effect trace and the updated AccessoryIndex, or an escaped exception (the
   index is never mutated on the throwing paths of the source). -/
inductive PDResult where
  | ok (eff : Effects) (acc : AccessoryIndex)
  | thrown (eff : Effects)
deriving DecidableEq, Repr

def mkAccessory (env : Env) (bridgeID : String) (d : DeviceDefinition) : PlatformAccessory :=
  { name := String.intercalate " " d.FullyQualifiedName
    UUID := env.genUuid d.SerialNumber
    context_device := d
    context_bridgeID := bridgeID }

/- processDevice, platform.ts lines 235-326, transcribed branch by branch.
   The accessory factory call happens before the DeviceType switch; the
   registration step (lines 318-325) is the shared continuation of the
   fallthrough arms of the switch. -/
def processDevice (env : Env) (opts : GlobalOptions) (bridgeID : String)
    (acc : AccessoryIndex) (d : DeviceDefinition) : PDResult :=
  let fullName := String.intercalate " " d.FullyQualifiedName
  let uuid := env.genUuid d.SerialNumber
  if hasKey acc uuid then
    .ok { infos := ["Accessory " ++ d.DeviceType ++ " " ++ uuid ++ " " ++ fullName ++
                    " already set up. Skipping."] } acc
  else
    let accessory := mkAccessory env bridgeID d
    let register : Effects → PDResult := fun eff =>
      let eff := { eff with registrations := eff.registrations ++ [accessory] }
      if env.registerOk uuid then
        .ok eff (setKey acc uuid accessory)
      else
        .ok { eff with errors := eff.errors ++
                ["Could not register " ++ d.DeviceType ++ " named " ++ fullName ++
                 " with uuid " ++ uuid] } acc
    match d.DeviceType with
    | "SerenaTiltOnlyWoodBlind" =>
      let eff : Effects := { infos := ["Found a new Serena blind: " ++ fullName]
                             created := [accessory] }
      if opts.filterBlinds then
        .ok { eff with warns := ["Serena wood blinds support disabled. Skipping " ++ fullName] } acc
      else if env.ctorThrows d then
        .thrown eff
      else
        register { eff with handlers :=
          [{ kind := "SerenaTiltOnlyWoodBlinds", uuid := uuid, passedOptions := none }] }
    | "Pico2Button" | "Pico2ButtonRaiseLower" | "Pico3Button" | "Pico3ButtonRaiseLower"
    | "Pico4Button2Group" | "Pico4ButtonScene" | "Pico4ButtonZone" =>
      let eff : Effects := { infos := ["Found a new " ++ d.DeviceType ++ " remote " ++ fullName]
                             created := [accessory] }
      if env.ctorThrows d then
        .thrown eff
      else
        register { eff with handlers :=
          [{ kind := "PicoRemote", uuid := uuid, passedOptions := some opts }] }
    | "RPSOccupancySensor" =>
      let eff : Effects := { infos := ["Found a new " ++ d.DeviceType ++ " occupancy sensor " ++ fullName]
                             created := [accessory] }
      if env.ctorThrows d then
        .thrown eff
      else if env.initThrows d then
        .thrown { eff with handlers :=
          [{ kind := "OccupancySensor", uuid := uuid, passedOptions := none }] }
      else
        register { eff with handlers :=
          [{ kind := "OccupancySensor", uuid := uuid, passedOptions := none }] }
    | "SmartBridge" | "WallSwitch" | "WallDimmer" | "CasetaFanSpeedController" =>
      .ok { infos := ["Device type " ++ d.DeviceType ++ " supported natively, skipping setup"]
            created := [accessory] } acc
    | "Pico4Button" | "FourGroupRemote" =>
      .ok { infos := ["Device type " ++ d.DeviceType ++
                      " not yet supported, skipping setup. Please file a request ticket."]
            created := [accessory] } acc
    | _ =>
      .ok { infos := ["Device type " ++ d.DeviceType ++
                      " not recognized, skipping setup. Please file a ticket to include information about it"]
            created := [accessory] } acc

/- Projections of the per-device step: the resulting index, the effect trace,
   and whether the step threw. -/
def pdIndex (env : Env) (opts : GlobalOptions) (bridgeID : String)
    (acc : AccessoryIndex) (d : DeviceDefinition) : AccessoryIndex :=
  match processDevice env opts bridgeID acc d with
  | .ok _ a => a
  | .thrown _ => acc

def pdEffects (env : Env) (opts : GlobalOptions) (bridgeID : String)
    (acc : AccessoryIndex) (d : DeviceDefinition) : Effects :=
  match processDevice env opts bridgeID acc d with
  | .ok e _ => e
  | .thrown e => e

def pdThrew (env : Env) (opts : GlobalOptions) (bridgeID : String)
    (acc : AccessoryIndex) (d : DeviceDefinition) : Bool :=
  match processDevice env opts bridgeID acc d with
  | .ok _ _ => false
  | .thrown _ => true

/- One iteration of the device loop of processAllDevices (platform.ts lines
   220-226): processDevice inside try/catch; a throw is logged with the
   devices fully qualified name and does not touch the index. -/
def processStep (env : Env) (opts : GlobalOptions) (bridgeID : String)
    (st : Effects × AccessoryIndex) (d : DeviceDefinition) : Effects × AccessoryIndex :=
  match processDevice env opts bridgeID st.2 d with
  | .ok e a => (st.1.append e, a)
  | .thrown e =>
    (st.1.append (e.append
      { errors := ["Failed to process device " ++ String.intercalate " " d.FullyQualifiedName] }),
     st.2)

def processAllDevicesAux (env : Env) (opts : GlobalOptions) (bridgeID : String)
    (st : Effects × AccessoryIndex) (devs : List DeviceDefinition) : Effects × AccessoryIndex :=
  devs.foldl (processStep env opts bridgeID) st

/- The resolved branch of processAllDevices (platform.ts lines 216-233): the
   inventory list has been fetched, and each device is processed sequentially
   with per-device exception isolation. -/
def processAllDevices (env : Env) (opts : GlobalOptions) (bridgeID : String)
    (acc : AccessoryIndex) (devs : List DeviceDefinition) : Effects × AccessoryIndex :=
  processAllDevicesAux env opts bridgeID ({}, acc) devs

def runIndex (env : Env) (opts : GlobalOptions) (bridgeID : String)
    (acc : AccessoryIndex) (devs : List DeviceDefinition) : AccessoryIndex :=
  (processAllDevices env opts bridgeID acc devs).2

def runEffects (env : Env) (opts : GlobalOptions) (bridgeID : String)
    (acc : AccessoryIndex) (devs : List DeviceDefinition) : Effects :=
  (processAllDevices env opts bridgeID acc devs).1

/- configureAccessory, platform.ts lines 142-194: the restore callback invoked
   by homebridge once per cached accessory.  Every switch arm falls through to
   the final this.accessories.set call except the blind arm when filterBlinds
   is on, which returns early.  The default arm warns but still inserts.  The
   OccupancySensor initialization is not awaited here, so initThrows does not
   prevent insertion; a throwing handler constructor does. -/
def configureAccessory (env : Env) (opts : GlobalOptions)
    (acc : AccessoryIndex) (accessory : PlatformAccessory) : PDResult :=
  let d := accessory.context_device
  let fullName := String.intercalate " " d.FullyQualifiedName
  let baseInfo := "Restoring cached " ++ d.DeviceType ++ " " ++ accessory.UUID ++
                  " on bridge " ++ accessory.context_bridgeID
  match d.DeviceType with
  | "SerenaTiltOnlyWoodBlind" =>
    if opts.filterBlinds then
      .ok { infos := [baseInfo]
            warns := ["Serena wood blinds support disabled. Skipping " ++ fullName] } acc
    else if env.ctorThrows d then
      .thrown { infos := [baseInfo, "Restoring blinds " ++ fullName] }
    else
      .ok { infos := [baseInfo, "Restoring blinds " ++ fullName]
            handlers := [{ kind := "SerenaTiltOnlyWoodBlinds", uuid := accessory.UUID,
                           passedOptions := none }] }
        (setKey acc accessory.UUID accessory)
  | "Pico2Button" | "Pico2ButtonRaiseLower" | "Pico3Button" | "Pico3ButtonRaiseLower"
  | "Pico4Button2Group" | "Pico4ButtonZone" | "Pico4ButtonScene" =>
    if env.ctorThrows d then
      .thrown { infos := [baseInfo, "Restoring Pico remote " ++ fullName ++ " on bridge " ++
                          accessory.context_bridgeID] }
    else
      .ok { infos := [baseInfo, "Restoring Pico remote " ++ fullName ++ " on bridge " ++
                      accessory.context_bridgeID]
            handlers := [{ kind := "PicoRemote", uuid := accessory.UUID,
                           passedOptions := some opts }] }
        (setKey acc accessory.UUID accessory)
  | "RPSOccupancySensor" =>
    if env.ctorThrows d then
      .thrown { infos := [baseInfo, "Restoring occupancy sensor " ++ fullName ++ " on bridge " ++
                          accessory.context_bridgeID] }
    else
      .ok { infos := [baseInfo, "Restoring occupancy sensor " ++ fullName ++ " on bridge " ++
                      accessory.context_bridgeID]
            handlers := [{ kind := "OccupancySensor", uuid := accessory.UUID,
                           passedOptions := none }] }
        (setKey acc accessory.UUID accessory)
  | _ =>
    .ok { infos := [baseInfo]
          warns := ["Accessory " ++ fullName ++ " was cached but is not supported. Did you downgrade?"] }
      (setKey acc accessory.UUID accessory)

def caIndex (env : Env) (opts : GlobalOptions)
    (acc : AccessoryIndex) (accessory : PlatformAccessory) : AccessoryIndex :=
  match configureAccessory env opts acc accessory with
  | .ok _ a => a
  | .thrown _ => acc

def caEffects (env : Env) (opts : GlobalOptions)
    (acc : AccessoryIndex) (accessory : PlatformAccessory) : Effects :=
  match configureAccessory env opts acc accessory with
  | .ok e _ => e
  | .thrown e => e

/- The unsolicited-message router, platform.ts lines 328-341.  The DeviceHeard
   payload is read off response.Body.DeviceStatus.DeviceHeard on the matched
   shape. -/
structure DeviceHeard where
  DeviceType : String
  SerialNumber : String
deriving DecidableEq, Repr

structure DeviceStatus where
  DeviceHeard : DeviceHeard
deriving DecidableEq, Repr

structure OneDeviceStatus where
  DeviceStatus : DeviceStatus
deriving DecidableEq, Repr

structure ResponseHeader where
  Url : String
deriving DecidableEq, Repr

structure Response where
  CommuniqueType : String
  Header : ResponseHeader
  Body : OneDeviceStatus
deriving DecidableEq, Repr

/- The externally observable actions the router can take: schedule a delayed
   re-run of processAllDevices for the owning bridge (setTimeout with the
   given delay in milliseconds), or forward the response to the general
   listeners via emit. -/
inductive RouterAction where
  | scheduleRefresh (bridgeID : String) (delayMs : Nat)
  | forward (r : Response)
deriving DecidableEq, Repr

def handleUnsolicitedMessage (bridgeID : String) (r : Response) : List RouterAction × List String :=
  if r.CommuniqueType == "UpdateResponse" && r.Header.Url == "/device/status/deviceheard" then
    let heard := r.Body.DeviceStatus.DeviceHeard
    ([RouterAction.scheduleRefresh bridgeID 30000],
     ["New " ++ heard.DeviceType ++ " s/n " ++ heard.SerialNumber ++ ". Triggering refresh in 30s."])
  else
    ([RouterAction.forward r], [])

/- Bridge discovery, platform.ts lines 198-214. -/
structure BridgeNetInfo where
  bridgeid : String
  ipAddr : String
deriving DecidableEq, Repr

/- Outcome of one discovered event: the BridgeConnectionRegistry (the set of
   bridge ids held by the BridgeManager) after the call, the message of an
   escaped exception if one was thrown, the info log lines, and the bridge id
   for which a reconciliation was started, if any. -/
structure DiscoveryOutcome where
  registry : List String
  thrown : Option String
  infos : List String
  reconcileTriggered : Option String
deriving DecidableEq, Repr

/- secretsFromConfig, platform.ts lines 125-136: keys are lower-cased bridge
   ids, values keep the original-case bridgeid field. -/
def secretsFromConfig (entries : List BridgeAuthEntry) : List (String × BridgeAuthEntry) :=
  entries.foldl (fun out e => setKey out e.bridgeid.toLower e) []

def handleBridgeDiscovery (secrets : List (String × BridgeAuthEntry))
    (registry : List String) (b : BridgeNetInfo) : DiscoveryOutcome :=
  let lid := b.bridgeid.toLower
  if registry.contains lid then
    { registry := registry, thrown := none
      infos := ["Bridge " ++ b.bridgeid ++ " already known, closing."]
      reconcileTriggered := none }
  else if hasKey secrets lid then
    { registry := registry ++ [lid], thrown := none, infos := []
      reconcileTriggered := some lid }
  else
    { registry := registry
      thrown := some ("no credentials for bridge ID " ++ b.bridgeid)
      infos := [], reconcileTriggered := none }

/- The constructor of LutronCasetaLeap, platform.ts lines 56-111, restricted
   to its observable startup decisions: when the secrets map is empty it warns
   and returns before subscribing to DID_FINISH_LAUNCHING, so the BridgeFinder
   is never created and beginSearching is never called even when the launch
   event later fires. -/
structure StartupOutcome where
  warns : List String
  infos : List String
  subscribedDidFinishLaunching : Bool
  finderCreated : Bool
  beginSearchingCalled : Bool
deriving DecidableEq, Repr

def startup (cfgSecrets : List BridgeAuthEntry) (launchFires : Bool) : StartupOutcome :=
  let secrets := secretsFromConfig cfgSecrets
  if secrets.length == 0 then
    { warns := ["No bridge auth configured. Retiring."]
      infos := ["LutronCasetaLeap starting up..."]
      subscribedDidFinishLaunching := false
      finderCreated := false
      beginSearchingCalled := false }
  else
    { warns := []
      infos := ["LutronCasetaLeap starting up...",
                "LutronCasetaLeap plugin finished early initialization"]
      subscribedDidFinishLaunching := true
      finderCreated := launchFires
      beginSearchingCalled := launchFires }

/- Classification helpers used to state the claims; the lemmas below prove
   that they agree with the branch structure of processDevice. -/
def isPicoType (ty : String) : Bool :=
  ty == "Pico2Button" || ty == "Pico2ButtonRaiseLower" || ty == "Pico3Button" ||
  ty == "Pico3ButtonRaiseLower" || ty == "Pico4Button2Group" || ty == "Pico4ButtonScene" ||
  ty == "Pico4ButtonZone"

/- The fourteen case labels of the processDevice switch. -/
def recognizedDeviceType (ty : String) : Bool :=
  ty == "SerenaTiltOnlyWoodBlind" || isPicoType ty || ty == "RPSOccupancySensor" ||
  ty == "SmartBridge" || ty == "WallSwitch" || ty == "WallDimmer" ||
  ty == "CasetaFanSpeedController" || ty == "Pico4Button" || ty == "FourGroupRemote"

/- The nine case labels of the configureAccessory switch. -/
def restoreRecognized (ty : String) : Bool :=
  ty == "SerenaTiltOnlyWoodBlind" || isPicoType ty || ty == "RPSOccupancySensor"

/- Whether processDevice invokes a per-type handler for this device type
   under the given options (the arms that can reach the registration step). -/
def invokesHandler (opts : GlobalOptions) (ty : String) : Bool :=
  if ty == "SerenaTiltOnlyWoodBlind" then !opts.filterBlinds
  else isPicoType ty || ty == "RPSOccupancySensor"

/- Whether the registration step at platform.ts line 319 is reached for this
   device (assuming the device is not already in the index). -/
def reachesRegistration (env : Env) (opts : GlobalOptions) (d : DeviceDefinition) : Bool :=
  invokesHandler opts d.DeviceType && !env.ctorThrows d &&
  (!(d.DeviceType == "RPSOccupancySensor") || !env.initThrows d)

/- Whether processDevice inserts the device into the index (assuming it is
   not already present). -/
def inserts (env : Env) (opts : GlobalOptions) (d : DeviceDefinition) : Bool :=
  reachesRegistration env opts d && env.registerOk (env.genUuid d.SerialNumber)

/- Concrete environment and options used by the witnesses. -/
def env0 : Env :=
  { genUuid := id, registerOk := fun _ => true
    ctorThrows := fun _ => false, initThrows := fun _ => false }

def opts0 : GlobalOptions :=
  { filterPico := false, filterBlinds := false
    clickSpeedLong := ClickSpeed.default, clickSpeedDouble := ClickSpeed.default }

/- Effects form a monoid under append; these identities let the fold over the
   device list be decomposed. -/
theorem Effects.append_empty (a : Effects) : a.append {} = a := by
  simp [Effects.append]

theorem Effects.empty_append (a : Effects) : Effects.append {} a = a := by
  simp [Effects.append]

theorem Effects.append_assoc (a b c : Effects) :
    (a.append b).append c = a.append (b.append c) := by
  simp [Effects.append]

theorem hasKey_setKey {α : Type} (m : List (String × α)) (k k2 : String) (v : α) :
    hasKey (setKey m k v) k2 = (k == k2 || hasKey m k2) := by
  induction m with
  | nil => simp [hasKey, setKey]
  | cons p rest ih =>
    by_cases h : p.1 == k
    · have : p.1 = k := by simpa using h
      subst this
      simp [hasKey, setKey, h]
    · simp only [setKey, h, if_false, Bool.false_eq_true, ite_false]
      simp only [hasKey, List.any_cons] at ih ⊢
      rw [ih]
      cases hb : (p.1 == k2) <;> cases hc : (k == k2) <;> simp_all

/- The index effect of one processDevice call, characterised: skip when the
   uuid is present, insert exactly when the device reaches registration and
   the registration call succeeds, otherwise leave the index alone. -/
theorem pdIndex_eq (env : Env) (opts : GlobalOptions) (bid : String)
    (acc : AccessoryIndex) (d : DeviceDefinition) :
    pdIndex env opts bid acc d =
      if hasKey acc (env.genUuid d.SerialNumber) then acc
      else if inserts env opts d then
        setKey acc (env.genUuid d.SerialNumber) (mkAccessory env bid d)
      else acc := by
  unfold pdIndex processDevice inserts reachesRegistration invokesHandler isPicoType
  by_cases h : hasKey acc (env.genUuid d.SerialNumber)
  · simp [h]
  · simp only [h, Bool.false_eq_true, if_false]
    split <;> rename_i heq <;> (repeat' split at heq) <;>
      (try obtain ⟨heq1, heq2⟩ := heq) <;> (try subst heq1) <;> (try subst heq2) <;>
      (try subst heq) <;> simp_all

/- The registration calls issued by one processDevice call. -/
theorem pdRegs_eq (env : Env) (opts : GlobalOptions) (bid : String)
    (acc : AccessoryIndex) (d : DeviceDefinition) :
    (pdEffects env opts bid acc d).registrations =
      if hasKey acc (env.genUuid d.SerialNumber) then []
      else if reachesRegistration env opts d then [mkAccessory env bid d]
      else [] := by
  unfold pdEffects processDevice reachesRegistration invokesHandler isPicoType
  by_cases h : hasKey acc (env.genUuid d.SerialNumber)
  · simp [h]
  · simp only [h, Bool.false_eq_true, if_false]
    split <;> rename_i heq <;> (repeat' split at heq) <;>
      (try obtain ⟨heq1, heq2⟩ := heq) <;> (try subst heq1) <;> (try subst heq2) <;>
      (try subst heq) <;> simp_all

/- Whether one processDevice call throws, characterised. -/
def throwsDuring (env : Env) (opts : GlobalOptions) (d : DeviceDefinition) : Bool :=
  invokesHandler opts d.DeviceType &&
  (env.ctorThrows d || (d.DeviceType == "RPSOccupancySensor" && env.initThrows d))

theorem pdThrew_eq (env : Env) (opts : GlobalOptions) (bid : String)
    (acc : AccessoryIndex) (d : DeviceDefinition) :
    pdThrew env opts bid acc d =
      (!hasKey acc (env.genUuid d.SerialNumber) && throwsDuring env opts d) := by
  unfold pdThrew processDevice throwsDuring invokesHandler isPicoType
  by_cases h : hasKey acc (env.genUuid d.SerialNumber)
  · simp [h]
  · simp only [h, Bool.false_eq_true, if_false, Bool.not_false, Bool.true_and]
    split <;> rename_i heq <;> (repeat' split at heq) <;>
      (try obtain ⟨heq1, heq2⟩ := heq) <;> (try subst heq1) <;> (try subst heq2) <;>
      (try subst heq) <;> simp_all

/- The per-step effect trace: the processDevice trace plus, when the step
   threw, the catch-clause error line of processAllDevices. -/
def stepEff (env : Env) (opts : GlobalOptions) (bid : String)
    (acc : AccessoryIndex) (d : DeviceDefinition) : Effects :=
  if pdThrew env opts bid acc d then
    (pdEffects env opts bid acc d).append
      { errors := ["Failed to process device " ++ String.intercalate " " d.FullyQualifiedName] }
  else pdEffects env opts bid acc d

theorem processStep_eq (env : Env) (opts : GlobalOptions) (bid : String)
    (E : Effects) (A : AccessoryIndex) (d : DeviceDefinition) :
    processStep env opts bid (E, A) d =
      (E.append (stepEff env opts bid A d), pdIndex env opts bid A d) := by
  unfold processStep stepEff pdIndex pdEffects pdThrew
  cases hpd : processDevice env opts bid A d <;> simp [hpd]

theorem stepEff_registrations (env : Env) (opts : GlobalOptions) (bid : String)
    (A : AccessoryIndex) (d : DeviceDefinition) :
    (stepEff env opts bid A d).registrations = (pdEffects env opts bid A d).registrations := by
  unfold stepEff
  split <;> simp [Effects.append]

theorem stepEff_handlers (env : Env) (opts : GlobalOptions) (bid : String)
    (A : AccessoryIndex) (d : DeviceDefinition) :
    (stepEff env opts bid A d).handlers = (pdEffects env opts bid A d).handlers := by
  unfold stepEff
  split <;> simp [Effects.append]

/- Decomposition of the device loop: running from any starting trace is the
   starting trace appended with the trace of a fresh run, and the index is
   independent of the starting trace. -/
theorem aux_decomp (env : Env) (opts : GlobalOptions) (bid : String)
    (l : List DeviceDefinition) :
    ∀ (E : Effects) (A : AccessoryIndex),
      processAllDevicesAux env opts bid (E, A) l =
        (E.append (processAllDevicesAux env opts bid ({}, A) l).1,
         (processAllDevicesAux env opts bid ({}, A) l).2) := by
  induction l with
  | nil =>
    intro E A
    simp [processAllDevicesAux, Effects.append_empty]
  | cons d t ih =>
    intro E A
    have hL : processAllDevicesAux env opts bid (E, A) (d :: t) =
        processAllDevicesAux env opts bid (processStep env opts bid (E, A) d) t := rfl
    have hR : processAllDevicesAux env opts bid ({}, A) (d :: t) =
        processAllDevicesAux env opts bid (processStep env opts bid ({}, A) d) t := rfl
    rw [hL, hR, processStep_eq, processStep_eq, Effects.empty_append]
    rw [ih (E.append (stepEff env opts bid A d)) (pdIndex env opts bid A d),
        ih (stepEff env opts bid A d) (pdIndex env opts bid A d)]
    simp [Effects.append_assoc]

theorem runIndex_cons (env : Env) (opts : GlobalOptions) (bid : String)
    (A : AccessoryIndex) (d : DeviceDefinition) (t : List DeviceDefinition) :
    runIndex env opts bid A (d :: t) = runIndex env opts bid (pdIndex env opts bid A d) t := by
  unfold runIndex processAllDevices
  have hR : processAllDevicesAux env opts bid ({}, A) (d :: t) =
      processAllDevicesAux env opts bid (processStep env opts bid ({}, A) d) t := rfl
  rw [hR, processStep_eq, Effects.empty_append, aux_decomp]

theorem runEffects_cons (env : Env) (opts : GlobalOptions) (bid : String)
    (A : AccessoryIndex) (d : DeviceDefinition) (t : List DeviceDefinition) :
    runEffects env opts bid A (d :: t) =
      (stepEff env opts bid A d).append
        (runEffects env opts bid (pdIndex env opts bid A d) t) := by
  unfold runEffects processAllDevices
  have hR : processAllDevicesAux env opts bid ({}, A) (d :: t) =
      processAllDevicesAux env opts bid (processStep env opts bid ({}, A) d) t := rfl
  rw [hR, processStep_eq, Effects.empty_append, aux_decomp]

theorem runIndex_nil (env : Env) (opts : GlobalOptions) (bid : String) (A : AccessoryIndex) :
    runIndex env opts bid A [] = A := rfl

theorem runEffects_nil (env : Env) (opts : GlobalOptions) (bid : String) (A : AccessoryIndex) :
    runEffects env opts bid A [] = ({} : Effects) := rfl

theorem runIndex_append (env : Env) (opts : GlobalOptions) (bid : String)
    (A : AccessoryIndex) (l1 l2 : List DeviceDefinition) :
    runIndex env opts bid A (l1 ++ l2) = runIndex env opts bid (runIndex env opts bid A l1) l2 := by
  unfold runIndex processAllDevices
  show (processAllDevicesAux env opts bid ({}, A) (l1 ++ l2)).2 = _
  unfold processAllDevicesAux
  rw [List.foldl_append]
  have h := aux_decomp env opts bid l2 (List.foldl (processStep env opts bid) ({}, A) l1).1
    (List.foldl (processStep env opts bid) ({}, A) l1).2
  unfold processAllDevicesAux at h
  rw [← Prod.mk.eta (p := List.foldl (processStep env opts bid) ({}, A) l1), h]

theorem runEffects_append (env : Env) (opts : GlobalOptions) (bid : String)
    (A : AccessoryIndex) (l1 l2 : List DeviceDefinition) :
    runEffects env opts bid A (l1 ++ l2) =
      (runEffects env opts bid A l1).append
        (runEffects env opts bid (runIndex env opts bid A l1) l2) := by
  unfold runEffects runIndex processAllDevices
  show (processAllDevicesAux env opts bid ({}, A) (l1 ++ l2)).1 = _
  unfold processAllDevicesAux
  rw [List.foldl_append]
  have h := aux_decomp env opts bid l2 (List.foldl (processStep env opts bid) ({}, A) l1).1
    (List.foldl (processStep env opts bid) ({}, A) l1).2
  unfold processAllDevicesAux at h
  rw [← Prod.mk.eta (p := List.foldl (processStep env opts bid) ({}, A) l1), h]

/- The index only grows: a uuid present before a step (or a whole pass) is
   present afterwards. -/
theorem hasKey_pdIndex_mono (env : Env) (opts : GlobalOptions) (bid : String)
    (A : AccessoryIndex) (d : DeviceDefinition) (k : String)
    (h : hasKey A k = true) : hasKey (pdIndex env opts bid A d) k = true := by
  rw [pdIndex_eq]
  split
  · exact h
  · split
    · rw [hasKey_setKey]
      simp [h]
    · exact h

theorem hasKey_runIndex_mono (env : Env) (opts : GlobalOptions) (bid : String)
    (l : List DeviceDefinition) :
    ∀ (A : AccessoryIndex) (k : String), hasKey A k = true →
      hasKey (runIndex env opts bid A l) k = true := by
  induction l with
  | nil =>
    intro A k h
    simpa [runIndex_nil] using h
  | cons d t ih =>
    intro A k h
    rw [runIndex_cons]
    exact ih _ _ (hasKey_pdIndex_mono env opts bid A d k h)

/- A pass never inserts a uuid that does not belong to one of its devices. -/
theorem runIndex_fresh (env : Env) (opts : GlobalOptions) (bid : String)
    (l : List DeviceDefinition) :
    ∀ (A : AccessoryIndex) (k : String), hasKey A k = false →
      (∀ d ∈ l, env.genUuid d.SerialNumber ≠ k) →
      hasKey (runIndex env opts bid A l) k = false := by
  induction l with
  | nil =>
    intro A k h _
    simpa [runIndex_nil] using h
  | cons d t ih =>
    intro A k h hf
    rw [runIndex_cons]
    apply ih
    · rw [pdIndex_eq]
      split
    
      · exact h
      · split
        · rw [hasKey_setKey]
          have hne : env.genUuid d.SerialNumber ≠ k := hf d (by simp)
          simp [h, hne]
        · exact h
    · intro d2 hd2
      exact hf d2 (by simp [hd2])

/- A device of the list that inserts ends up in the index of the pass. -/
theorem runIndex_inserts_mem (env : Env) (opts : GlobalOptions) (bid : String)
    (l : List DeviceDefinition) :
    ∀ (A : AccessoryIndex) (d : DeviceDefinition), d ∈ l → inserts env opts d = true →
      hasKey (runIndex env opts bid A l) (env.genUuid d.SerialNumber) = true := by
  induction l with
  | nil =>
    intro A d hd
    simp at hd
  | cons d0 t ih =>
    intro A d hd hi
    rw [runIndex_cons]
    rcases List.mem_cons.mp hd with h | h
    · subst h
      by_cases hk : hasKey A (env.genUuid d.SerialNumber) = true
      · exact hasKey_runIndex_mono env opts bid t _ _ (hasKey_pdIndex_mono env opts bid A d _ hk)
      · apply hasKey_runIndex_mono
        rw [pdIndex_eq]
        have hk2 : hasKey A (env.genUuid d.SerialNumber) = false := by
          simpa using hk
        rw [if_neg (by simp [hk2]), if_pos (by simp [hi]), hasKey_setKey]
        simp
    · exact ih _ _ h hi

/- If every device of the list is either already present or never inserts,
   the pass is a no-op on the index. -/
theorem runIndex_stable (env : Env) (opts : GlobalOptions) (bid : String)
    (l : List DeviceDefinition) :
    ∀ (A : AccessoryIndex),
      (∀ d ∈ l, hasKey A (env.genUuid d.SerialNumber) = true ∨ inserts env opts d = false) →
      runIndex env opts bid A l = A := by
  induction l with
  | nil =>
    intro A _
    rfl
  | cons d0 t ih =>
    intro A h
    rw [runIndex_cons]
    have h0 := h d0 (by simp)
    have hpd : pdIndex env opts bid A d0 = A := by
      rw [pdIndex_eq]
      rcases h0 with h0 | h0
      · simp [h0]
      · simp [h0]
    rw [hpd]
    exact ih A (fun d hd => h d (by simp [hd]))

/- Re-running the same inventory is a no-op on the index. -/
theorem runIndex_idem (env : Env) (opts : GlobalOptions) (bid : String)
    (A : AccessoryIndex) (l : List DeviceDefinition) :
    runIndex env opts bid (runIndex env opts bid A l) l = runIndex env opts bid A l := by
  apply runIndex_stable
  intro d hd
  by_cases hi : inserts env opts d = true
  · exact Or.inl (runIndex_inserts_mem env opts bid l A d hd hi)
  · exact Or.inr (by simpa using hi)

/- The handler constructor invocations of one processDevice call. -/
def handlerKind (ty : String) : String :=
  if ty == "SerenaTiltOnlyWoodBlind" then "SerenaTiltOnlyWoodBlinds"
  else if isPicoType ty then "PicoRemote"
  else "OccupancySensor"

theorem pdHandlers_eq (env : Env) (opts : GlobalOptions) (bid : String)
    (acc : AccessoryIndex) (d : DeviceDefinition) :
    (pdEffects env opts bid acc d).handlers =
      if hasKey acc (env.genUuid d.SerialNumber) then []
      else if invokesHandler opts d.DeviceType && !env.ctorThrows d then
        [{ kind := handlerKind d.DeviceType, uuid := env.genUuid d.SerialNumber,
           passedOptions := if isPicoType d.DeviceType then some opts else none }]
      else [] := by
  unfold pdEffects processDevice invokesHandler handlerKind isPicoType
  by_cases h : hasKey acc (env.genUuid d.SerialNumber)
  · simp [h]
  · simp only [h, Bool.false_eq_true, if_false]
    split <;> rename_i heq <;> (repeat' split at heq) <;>
      (try obtain ⟨heq1, heq2⟩ := heq) <;> (try subst heq1) <;> (try subst heq2) <;>
      (try subst heq) <;> simp_all

/- The warning lines of one processDevice call: only the filtered-blind path
   warns. -/
theorem pdWarns_eq (env : Env) (opts : GlobalOptions) (bid : String)
    (acc : AccessoryIndex) (d : DeviceDefinition) :
    (pdEffects env opts bid acc d).warns =
      if hasKey acc (env.genUuid d.SerialNumber) then []
      else if d.DeviceType == "SerenaTiltOnlyWoodBlind" && opts.filterBlinds then
        ["Serena wood blinds support disabled. Skipping " ++
         String.intercalate " " d.FullyQualifiedName]
      else [] := by
  unfold pdEffects processDevice
  by_cases h : hasKey acc (env.genUuid d.SerialNumber)
  · simp [h]
  · simp only [h, Bool.false_eq_true, if_false]
    split <;> rename_i heq <;> (repeat' split at heq) <;>
      (try obtain ⟨heq1, heq2⟩ := heq) <;> (try subst heq1) <;> (try subst heq2) <;>
      (try subst heq) <;> simp_all

/- The accessory factory calls of one processDevice call: exactly one handle
   is created whenever the device is not already indexed, whatever its type. -/
theorem pdCreated_eq (env : Env) (opts : GlobalOptions) (bid : String)
    (acc : AccessoryIndex) (d : DeviceDefinition) :
    (pdEffects env opts bid acc d).created =
      if hasKey acc (env.genUuid d.SerialNumber) then []
      else [mkAccessory env bid d] := by
  unfold pdEffects processDevice
  by_cases h : hasKey acc (env.genUuid d.SerialNumber)
  · simp [h]
  · simp only [h, Bool.false_eq_true, if_false]
    split <;> rename_i heq <;> (repeat' split at heq) <;>
      (try obtain ⟨heq1, heq2⟩ := heq) <;> (try subst heq1) <;> (try subst heq2) <;>
      (try subst heq) <;> simp_all

/- A device whose uuid is already present is skipped with a single info line
   and no other effect (platform.ts lines 239-242). -/
theorem pd_skip (env : Env) (opts : GlobalOptions) (bid : String)
    (acc : AccessoryIndex) (d : DeviceDefinition)
    (hk : hasKey acc (env.genUuid d.SerialNumber) = true) :
    processDevice env opts bid acc d =
      .ok { infos := ["Accessory " ++ d.DeviceType ++ " " ++ env.genUuid d.SerialNumber ++ " " ++
                      String.intercalate " " d.FullyQualifiedName ++ " already set up. Skipping."] }
        acc := by
  unfold processDevice
  simp [hk]

/- The filtered-blind path in full (platform.ts lines 250-257). -/
theorem pd_blind_filtered (env : Env) (opts : GlobalOptions) (bid : String)
    (acc : AccessoryIndex) (d : DeviceDefinition)
    (hty : d.DeviceType = "SerenaTiltOnlyWoodBlind")
    (hf : opts.filterBlinds = true)
    (hk : hasKey acc (env.genUuid d.SerialNumber) = false) :
    processDevice env opts bid acc d =
      .ok { infos := ["Found a new Serena blind: " ++ String.intercalate " " d.FullyQualifiedName]
            warns := ["Serena wood blinds support disabled. Skipping " ++
                      String.intercalate " " d.FullyQualifiedName]
            created := [mkAccessory env bid d] } acc := by
  unfold processDevice
  simp [hk, hty, hf]

/- The default arm in full (platform.ts lines 308-315). -/
theorem pd_unrecognized (env : Env) (opts : GlobalOptions) (bid : String)
    (acc : AccessoryIndex) (d : DeviceDefinition)
    (hty : recognizedDeviceType d.DeviceType = false)
    (hk : hasKey acc (env.genUuid d.SerialNumber) = false) :
    processDevice env opts bid acc d =
      .ok { infos := ["Device type " ++ d.DeviceType ++
                      " not recognized, skipping setup. Please file a ticket to include information about it"]
            created := [mkAccessory env bid d] } acc := by
  unfold processDevice
  simp only [hk, Bool.false_eq_true, if_false]
  split <;> simp_all [recognizedDeviceType, isPicoType]

/- The catch clause of the device loop logs the qualified name on a throw. -/
theorem stepEff_errors_of_threw (env : Env) (opts : GlobalOptions) (bid : String)
    (A : AccessoryIndex) (d : DeviceDefinition)
    (h : pdThrew env opts bid A d = true) :
    ("Failed to process device " ++ String.intercalate " " d.FullyQualifiedName) ∈
      (stepEff env opts bid A d).errors := by
  unfold stepEff
  simp [h, Effects.append]

/- The error lines of one processDevice call: only a failing registration
   call logs an error inside processDevice itself. -/
theorem pdErrors_eq (env : Env) (opts : GlobalOptions) (bid : String)
    (acc : AccessoryIndex) (d : DeviceDefinition) :
    (pdEffects env opts bid acc d).errors =
      if hasKey acc (env.genUuid d.SerialNumber) then []
      else if reachesRegistration env opts d && !env.registerOk (env.genUuid d.SerialNumber) then
        ["Could not register " ++ d.DeviceType ++ " named " ++
         String.intercalate " " d.FullyQualifiedName ++ " with uuid " ++
         env.genUuid d.SerialNumber]
      else [] := by
  unfold pdEffects processDevice reachesRegistration invokesHandler isPicoType
  by_cases h : hasKey acc (env.genUuid d.SerialNumber)
  · simp [h]
  · simp only [h, Bool.false_eq_true, if_false]
    split <;> rename_i heq <;> (repeat' split at heq) <;>
      (try obtain ⟨heq1, heq2⟩ := heq) <;> (try subst heq1) <;> (try subst heq2) <;>
      (try subst heq) <;> simp_all

/- Small facts about the Pico device type tags. -/
theorem pico_ne_blind (ty : String) (h : isPicoType ty = true) :
    ty ≠ "SerenaTiltOnlyWoodBlind" := by
  intro hcon
  subst hcon
  exact absurd h (by decide)

theorem pico_ne_occ (ty : String) (h : isPicoType ty = true) :
    ty ≠ "RPSOccupancySensor" := by
  intro hcon
  subst hcon
  exact absurd h (by decide)

theorem pico_invokesHandler (opts : GlobalOptions) (ty : String) (h : isPicoType ty = true) :
    invokesHandler opts ty = true := by
  have hne := pico_ne_blind ty h
  simp [invokesHandler, hne, h]

theorem pico_handlerKind (ty : String) (h : isPicoType ty = true) :
    handlerKind ty = "PicoRemote" := by
  have hne := pico_ne_blind ty h
  simp [handlerKind, hne, h]

/- With filterBlinds on, no registration of a pass concerns a blind. -/
theorem run_no_blind_regs (env : Env) (opts : GlobalOptions) (bid : String)
    (l : List DeviceDefinition) (hf : opts.filterBlinds = true) :
    ∀ (A : AccessoryIndex), ∀ a ∈ (runEffects env opts bid A l).registrations,
      a.context_device.DeviceType ≠ "SerenaTiltOnlyWoodBlind" := by
  induction l with
  | nil =>
    intro A a ha
    simp [runEffects_nil] at ha
  | cons d t ih =>
    intro A a ha
    rw [runEffects_cons] at ha
    simp only [Effects.append, List.mem_append] at ha
    rcases ha with ha | ha
    · rw [stepEff_registrations, pdRegs_eq] at ha
      split at ha
      · simp at ha
      · split at ha
        · rename_i hreach
          simp at ha
          subst ha
          simp only [mkAccessory]
          intro hdt
          simp [reachesRegistration, invokesHandler, hdt, hf] at hreach
        · simp at ha
    · exact ih _ a ha

/- With filterBlinds on, no handler invocation of a pass is the blind
   handler. -/
theorem run_no_blind_handlers (env : Env) (opts : GlobalOptions) (bid : String)
    (l : List DeviceDefinition) (hf : opts.filterBlinds = true) :
    ∀ (A : AccessoryIndex), ∀ hc ∈ (runEffects env opts bid A l).handlers,
      hc.kind ≠ "SerenaTiltOnlyWoodBlinds" := by
  induction l with
  | nil =>
    intro A hc hmem
    simp [runEffects_nil] at hmem
  | cons d t ih =>
    intro A hc hmem
    rw [runEffects_cons] at hmem
    simp only [Effects.append, List.mem_append] at hmem
    rcases hmem with hmem | hmem
    · rw [stepEff_handlers, pdHandlers_eq] at hmem
      split at hmem
      · simp at hmem
      · split at hmem
        · rename_i hinv
          simp at hmem
          subst hmem
          by_cases hdt : d.DeviceType = "SerenaTiltOnlyWoodBlind"
          · simp [invokesHandler, hdt, hf] at hinv
          · simp only [handlerKind]
            simp [hdt]
            split <;> decide
        · simp at hmem
    · exact ih _ hc hmem

theorem unrecognized_not_invokes (opts : GlobalOptions) (ty : String)
    (h : recognizedDeviceType ty = false) : invokesHandler opts ty = false := by
  unfold recognizedDeviceType at h
  unfold invokesHandler
  cases h1 : (ty == "SerenaTiltOnlyWoodBlind") <;> cases h2 : isPicoType ty <;>
    cases h3 : (ty == "RPSOccupancySensor") <;> simp_all

/- Concrete fixtures used by the witnesses and counterexamples below. -/
def dPico3 : DeviceDefinition :=
  { DeviceType := "Pico3Button", SerialNumber := "12345"
    FullyQualifiedName := ["Living Room", "Pico"] }

def dBlind : DeviceDefinition :=
  { DeviceType := "SerenaTiltOnlyWoodBlind", SerialNumber := "55555"
    FullyQualifiedName := ["Den", "Blind"] }

def dUnknown : DeviceDefinition :=
  { DeviceType := "FrobulatorX", SerialNumber := "88888"
    FullyQualifiedName := ["Attic", "Gadget"] }

def dOcc : DeviceDefinition :=
  { DeviceType := "RPSOccupancySensor", SerialNumber := "66666"
    FullyQualifiedName := ["Hall", "Sensor"] }

def opts1 : GlobalOptions := { opts0 with filterPico := true }

def opts2 : GlobalOptions := { opts0 with filterBlinds := true }

def envT : Env :=
  { env0 with ctorThrows := fun d => d.DeviceType == "RPSOccupancySensor" }

def envIT : Env :=
  { env0 with initThrows := fun d => d.DeviceType == "RPSOccupancySensor" }

def envRF : Env :=
  { env0 with registerOk := fun _ => false }

def accW : AccessoryIndex := [("12345", mkAccessory env0 "aa11" dPico3)]

/-- Claim C1 counterexample: with the remote filter option on (filterPico true)
    a new Pico3Button device is not skipped by processDevice: no warning is
    logged, the Pico handler is invoked, a registration call is issued, and
    the AccessoryIndex changes. -/
theorem c1_counterexample :
    opts1.filterPico = true
    ∧ (pdEffects env0 opts1 "aa11" [] dPico3).warns = []
    ∧ (pdEffects env0 opts1 "aa11" [] dPico3).handlers ≠ []
    ∧ (pdEffects env0 opts1 "aa11" [] dPico3).registrations ≠ []
    ∧ pdIndex env0 opts1 "aa11" [] dPico3 ≠ [] := by
  refine ⟨rfl, rfl, ?_, ?_, ?_⟩ <;> decide

/-- Claim C1 (amended): processDevice never consults the remote filter
    option.  For every device record of a recognized multi-button remote type
    that is not already in the AccessoryIndex and whose handler constructor
    does not throw, and for every options record (in particular with
    filterPico true), it creates the accessory handle, logs no warning,
    invokes the remote handler handing it the GlobalOptions, issues the
    registration call, and inserts into the AccessoryIndex exactly when the
    registration call succeeds. -/
theorem c1_pico_filter_not_consulted (env : Env) (opts : GlobalOptions) (bid : String)
    (acc : AccessoryIndex) (d : DeviceDefinition)
    (hty : isPicoType d.DeviceType = true)
    (hk : hasKey acc (env.genUuid d.SerialNumber) = false)
    (hnothrow : env.ctorThrows d = false) :
    (pdEffects env opts bid acc d).warns = []
    ∧ (pdEffects env opts bid acc d).created = [mkAccessory env bid d]
    ∧ (pdEffects env opts bid acc d).handlers =
        [{ kind := "PicoRemote", uuid := env.genUuid d.SerialNumber, passedOptions := some opts }]
    ∧ (pdEffects env opts bid acc d).registrations = [mkAccessory env bid d]
    ∧ pdIndex env opts bid acc d =
        (if env.registerOk (env.genUuid d.SerialNumber) = true then
          setKey acc (env.genUuid d.SerialNumber) (mkAccessory env bid d) else acc) := by
  have hneb := pico_ne_blind d.DeviceType hty
  have hneo := pico_ne_occ d.DeviceType hty
  have hinv := pico_invokesHandler opts d.DeviceType hty
  have hreach : reachesRegistration env opts d = true := by
    simp [reachesRegistration, hinv, hnothrow, hneo]
  refine ⟨?_, ?_, ?_, ?_, ?_⟩
  · rw [pdWarns_eq]
    simp [hk, hneb]
  · rw [pdCreated_eq]
    simp [hk]
  · rw [pdHandlers_eq]
    simp [hk, hinv, hnothrow, pico_handlerKind d.DeviceType hty, hty]
  · rw [pdRegs_eq]
    simp [hk, hreach]
  · rw [pdIndex_eq]
    simp [hk, inserts, hreach]

/-- Witness for Claim C1 at the concrete filterPico true scenario. -/
theorem c1_witness :
    (isPicoType dPico3.DeviceType = true
      ∧ hasKey ([] : AccessoryIndex) (env0.genUuid dPico3.SerialNumber) = false
      ∧ env0.ctorThrows dPico3 = false)
    ∧ (pdEffects env0 opts1 "aa11" [] dPico3).handlers =
        [{ kind := "PicoRemote", uuid := env0.genUuid dPico3.SerialNumber,
           passedOptions := some opts1 }] :=
  ⟨⟨by decide, by decide, by decide⟩,
   (c1_pico_filter_not_consulted env0 opts1 "aa11" [] dPico3
      (by decide) (by decide) (by decide)).2.2.1⟩

/-- Claim C2 counterexample: with filterBlinds true, a new blind device still
    produces an AccessoryHandle, because the factory call at platform.ts line
    244 precedes the filter check inside the type switch. -/
theorem c2_counterexample :
    opts2.filterBlinds = true
    ∧ (runEffects env0 opts2 "aa11" [] [dBlind]).created = [mkAccessory env0 "aa11" dBlind] := by
  refine ⟨rfl, ?_⟩
  decide

/-- Claim C2 (amended): with filterBlinds true, no reconciliation pass ever
    issues a registration call for a blind device or invokes the blind
    handler, a blind device never changes the AccessoryIndex, and each blind
    device not already indexed is skipped with exactly one warning; the one
    deviation from the original claim is that a transient accessory handle is
    still created by the factory and then discarded. -/
theorem c2_blind_filter (env : Env) (opts : GlobalOptions) (bid : String)
    (A : AccessoryIndex) (l : List DeviceDefinition) (d : DeviceDefinition)
    (hf : opts.filterBlinds = true) :
    (∀ a ∈ (runEffects env opts bid A l).registrations,
        a.context_device.DeviceType ≠ "SerenaTiltOnlyWoodBlind")
    ∧ (∀ hc ∈ (runEffects env opts bid A l).handlers, hc.kind ≠ "SerenaTiltOnlyWoodBlinds")
    ∧ (d.DeviceType = "SerenaTiltOnlyWoodBlind" →
        pdIndex env opts bid A d = A
        ∧ (hasKey A (env.genUuid d.SerialNumber) = false →
            processDevice env opts bid A d =
              .ok { infos := ["Found a new Serena blind: " ++
                              String.intercalate " " d.FullyQualifiedName]
                    warns := ["Serena wood blinds support disabled. Skipping " ++
                              String.intercalate " " d.FullyQualifiedName]
                    created := [mkAccessory env bid d] } A)) := by
  refine ⟨run_no_blind_regs env opts bid l hf A, run_no_blind_handlers env opts bid l hf A, ?_⟩
  intro hdt
  constructor
  · rw [pdIndex_eq]
    have hins : inserts env opts d = false := by
      simp [inserts, reachesRegistration, invokesHandler, hdt, hf]
    simp [hins]
  · intro hk
    exact pd_blind_filtered env opts bid A d hdt hf hk

/-- Witness for Claim C2 at the concrete filtered-blind scenario. -/
theorem c2_witness :
    opts2.filterBlinds = true ∧ pdIndex env0 opts2 "aa11" [] dBlind = [] :=
  ⟨rfl, ((c2_blind_filter env0 opts2 "aa11" [] [dBlind] dBlind rfl).2.2 (by decide)).1⟩

/-- Claim C3 counterexample: a device with an unrecognized deviceType still
    produces an accessory handle object (created and then discarded),
    because the factory call precedes the type switch. -/
theorem c3_counterexample :
    recognizedDeviceType dUnknown.DeviceType = false
    ∧ (pdEffects env0 opts0 "aa11" [] dUnknown).created = [mkAccessory env0 "aa11" dUnknown] := by
  refine ⟨by decide, ?_⟩
  decide

/-- Claim C3 (amended): for every device record with an unrecognized
    deviceType, processDevice issues no registration call, invokes no
    handler, throws no exception, leaves the AccessoryIndex unchanged, logs
    one informational line, and never aborts the rest of the inventory batch;
    the one deviation from the original claim is that a transient accessory
    handle is created (and discarded) when the device is not already
    indexed. -/
theorem c3_unrecognized_tolerated (env : Env) (opts : GlobalOptions) (bid : String)
    (acc : AccessoryIndex) (d : DeviceDefinition) (l1 l2 : List DeviceDefinition)
    (hty : recognizedDeviceType d.DeviceType = false) :
    pdThrew env opts bid acc d = false
    ∧ (pdEffects env opts bid acc d).registrations = []
    ∧ (pdEffects env opts bid acc d).handlers = []
    ∧ pdIndex env opts bid acc d = acc
    ∧ (hasKey acc (env.genUuid d.SerialNumber) = false →
        processDevice env opts bid acc d =
          .ok { infos := ["Device type " ++ d.DeviceType ++
                          " not recognized, skipping setup. Please file a ticket to include information about it"]
                created := [mkAccessory env bid d] } acc)
    ∧ runIndex env opts bid acc (l1 ++ d :: l2) = runIndex env opts bid acc (l1 ++ l2) := by
  have hinv := unrecognized_not_invokes opts d.DeviceType hty
  have hreach : reachesRegistration env opts d = false := by
    simp [reachesRegistration, hinv]
  have hins : inserts env opts d = false := by
    simp [inserts, hreach]
  refine ⟨?_, ?_, ?_, ?_, ?_, ?_⟩
  · rw [pdThrew_eq]
    simp [throwsDuring, hinv]
  · rw [pdRegs_eq]
    simp [hreach]
  · rw [pdHandlers_eq]
    simp [hinv]
  · rw [pdIndex_eq]
    simp [hins]
  · intro hk
    exact pd_unrecognized env opts bid acc d hty hk
  · rw [runIndex_append, runIndex_append, runIndex_cons]
    congr 1
    rw [pdIndex_eq]
    simp [hins]

/-- Witness for Claim C3 at the concrete unknown-type scenario. -/
theorem c3_witness :
    recognizedDeviceType dUnknown.DeviceType = false
    ∧ (pdThrew env0 opts0 "aa11" [] dUnknown = false
       ∧ pdIndex env0 opts0 "aa11" [] dUnknown = []) := by
  have h := c3_unrecognized_tolerated env0 opts0 "aa11" [] dUnknown [] [] (by decide)
  exact ⟨by decide, h.1, h.2.2.2.1⟩

/-- Claim C4: a notification whose CommuniqueType is UpdateResponse and whose
    header URL is /device/status/deviceheard makes the router schedule
    exactly one delayed re-reconciliation (30000 ms) of the owning bridge and
    forward nothing; any other notification is forwarded unchanged to the
    general subscribers and schedules nothing. -/
theorem c4_unsolicited_routing (bid : String) (r : Response) :
    (r.CommuniqueType = "UpdateResponse" ∧ r.Header.Url = "/device/status/deviceheard" →
      (handleUnsolicitedMessage bid r).1 = [RouterAction.scheduleRefresh bid 30000])
    ∧ (¬(r.CommuniqueType = "UpdateResponse" ∧ r.Header.Url = "/device/status/deviceheard") →
      (handleUnsolicitedMessage bid r).1 = [RouterAction.forward r]) := by
  constructor
  · rintro ⟨h1, h2⟩
    simp [handleUnsolicitedMessage, h1, h2]
  · intro h
    by_cases h1 : r.CommuniqueType = "UpdateResponse"
    · by_cases h2 : r.Header.Url = "/device/status/deviceheard"
      · exact absurd ⟨h1, h2⟩ h
      · simp [handleUnsolicitedMessage, h1, h2]
    · simp [handleUnsolicitedMessage, h1]

def rMatched : Response :=
  { CommuniqueType := "UpdateResponse"
    Header := { Url := "/device/status/deviceheard" }
    Body := { DeviceStatus := { DeviceHeard := { DeviceType := "Pico3Button", SerialNumber := "99999" } } } }

/-- Witness for Claim C4 at a concrete matched notification. -/
theorem c4_witness :
    (rMatched.CommuniqueType = "UpdateResponse"
      ∧ rMatched.Header.Url = "/device/status/deviceheard")
    ∧ (handleUnsolicitedMessage "aa11" rMatched).1 =
        [RouterAction.scheduleRefresh "aa11" 30000] :=
  ⟨⟨rfl, rfl⟩, (c4_unsolicited_routing "aa11" rMatched).1 ⟨rfl, rfl⟩⟩

/-- Claim C5: reconciliation is idempotent on the AccessoryIndex: a device
    whose derived uuid is already present is skipped with a single info line
    (no handle creation, no handler, no registration, index unchanged), and
    running the same inventory a second time leaves the index of the first
    run unchanged. -/
theorem c5_reconcile_idempotent (env : Env) (opts : GlobalOptions) (bid : String)
    (acc : AccessoryIndex) (d : DeviceDefinition) (l : List DeviceDefinition)
    (hk : hasKey acc (env.genUuid d.SerialNumber) = true) :
    processDevice env opts bid acc d =
      .ok { infos := ["Accessory " ++ d.DeviceType ++ " " ++ env.genUuid d.SerialNumber ++ " " ++
                      String.intercalate " " d.FullyQualifiedName ++ " already set up. Skipping."] }
        acc
    ∧ runIndex env opts bid (runIndex env opts bid acc l) l = runIndex env opts bid acc l :=
  ⟨pd_skip env opts bid acc d hk, runIndex_idem env opts bid acc l⟩

/-- Witness for Claim C5: a restored accessory with the same serial number is
    skipped and a re-run of the inventory is a no-op. -/
theorem c5_witness :
    hasKey accW (env0.genUuid dPico3.SerialNumber) = true
    ∧ (processDevice env0 opts0 "aa11" accW dPico3 =
        .ok { infos := ["Accessory " ++ dPico3.DeviceType ++ " " ++
                        env0.genUuid dPico3.SerialNumber ++ " " ++
                        String.intercalate " " dPico3.FullyQualifiedName ++
                        " already set up. Skipping."] } accW
      ∧ runIndex env0 opts0 "aa11" (runIndex env0 opts0 "aa11" accW [dPico3]) [dPico3] =
          runIndex env0 opts0 "aa11" accW [dPico3]) :=
  ⟨by decide, c5_reconcile_idempotent env0 opts0 "aa11" accW dPico3 [dPico3] (by decide)⟩

/- Whatever makes a per-device step throw (a handler constructor throwing or
   the awaited occupancy-sensor initialization rejecting) also prevents that
   step from reaching the registration line. -/
theorem throwsDuring_not_reaches (env : Env) (opts : GlobalOptions) (d : DeviceDefinition)
    (h : throwsDuring env opts d = true) : reachesRegistration env opts d = false := by
  cases h1 : env.ctorThrows d <;> cases h2 : env.initThrows d <;>
    cases h3 : (d.DeviceType == "RPSOccupancySensor") <;>
    simp_all [throwsDuring, reachesRegistration]

/-- Claim C6: per-device failure isolation.  If the device dk throws during
    its per-device processing (throwsDuring covers every throwing path of the
    embedded processDevice: a handler constructor throwing in the blind, Pico
    or occupancy arm, or the awaited occupancy-sensor initialization
    rejecting) while every other device of the inventory processes without
    throwing, then the final index and the issued registration calls are the
    same as for the inventory without dk, the failure is logged with the
    fully qualified name of dk, dk itself is absent from the final index, and
    every otherwise-eligible other device is inserted. -/
theorem c6_failure_isolation (env : Env) (opts : GlobalOptions) (bid : String)
    (acc : AccessoryIndex) (l1 l2 : List DeviceDefinition) (dk : DeviceDefinition)
    (hthrow : throwsDuring env opts dk = true)
    (hothers : ∀ d, d ∈ l1 ∨ d ∈ l2 → throwsDuring env opts d = false)
    (hk : hasKey acc (env.genUuid dk.SerialNumber) = false)
    (hfresh1 : ∀ d ∈ l1, env.genUuid d.SerialNumber ≠ env.genUuid dk.SerialNumber)
    (hfresh2 : ∀ d ∈ l2, env.genUuid d.SerialNumber ≠ env.genUuid dk.SerialNumber) :
    runIndex env opts bid acc (l1 ++ dk :: l2) = runIndex env opts bid acc (l1 ++ l2)
    ∧ (runEffects env opts bid acc (l1 ++ dk :: l2)).registrations =
        (runEffects env opts bid acc (l1 ++ l2)).registrations
    ∧ ("Failed to process device " ++ String.intercalate " " dk.FullyQualifiedName) ∈
        (runEffects env opts bid acc (l1 ++ dk :: l2)).errors
    ∧ hasKey (runIndex env opts bid acc (l1 ++ dk :: l2)) (env.genUuid dk.SerialNumber) = false
    ∧ (∀ d, d ∈ l1 ∨ d ∈ l2 → inserts env opts d = true →
        hasKey (runIndex env opts bid acc (l1 ++ dk :: l2)) (env.genUuid d.SerialNumber) = true) := by
  have hreach : reachesRegistration env opts dk = false :=
    throwsDuring_not_reaches env opts dk hthrow
  have hins : inserts env opts dk = false := by
    simp [inserts, hreach]
  have hpdA1 : ∀ A : AccessoryIndex, pdIndex env opts bid A dk = A := by
    intro A
    rw [pdIndex_eq]
    simp [hins]
  have hA1key : hasKey (runIndex env opts bid acc l1) (env.genUuid dk.SerialNumber) = false :=
    runIndex_fresh env opts bid l1 acc _ hk hfresh1
  have hidx : runIndex env opts bid acc (l1 ++ dk :: l2) = runIndex env opts bid acc (l1 ++ l2) := by
    rw [runIndex_append, runIndex_cons, hpdA1, ← runIndex_append]
  refine ⟨hidx, ?_, ?_, ?_, ?_⟩
  · rw [runEffects_append, runEffects_cons, runEffects_append, hpdA1]
    have hregs : (pdEffects env opts bid (runIndex env opts bid acc l1) dk).registrations = [] := by
      rw [pdRegs_eq]
      simp [hreach]
    simp [Effects.append, stepEff_registrations, hregs]
  · rw [runEffects_append, runEffects_cons]
    simp only [Effects.append, List.mem_append]
    refine Or.inr (Or.inl ?_)
    apply stepEff_errors_of_threw
    rw [pdThrew_eq]
    simp [hA1key, hthrow]
  · rw [runIndex_append, runIndex_cons, hpdA1]
    exact runIndex_fresh env opts bid l2 _ _ hA1key hfresh2
  · intro d hd hi
    apply runIndex_inserts_mem env opts bid (l1 ++ dk :: l2) acc d _ hi
    rcases hd with hd | hd
    · exact List.mem_append.mpr (Or.inl hd)
    · exact List.mem_append.mpr (Or.inr (List.mem_cons_of_mem _ hd))

/-- Witness for Claim C6: the occupancy sensor in the middle of the
    inventory throws through its awaited asynchronous initialization (its
    constructor succeeds); the Pico before it and the blind after it are
    unaffected and the failure is logged. -/
theorem c6_witness :
    (envIT.ctorThrows dOcc = false ∧ envIT.initThrows dOcc = true
      ∧ throwsDuring envIT opts0 dOcc = true)
    ∧ runIndex envIT opts0 "aa11" [] [dPico3, dOcc, dBlind] =
        runIndex envIT opts0 "aa11" [] [dPico3, dBlind]
    ∧ ("Failed to process device " ++ String.intercalate " " dOcc.FullyQualifiedName) ∈
        (runEffects envIT opts0 "aa11" [] [dPico3, dOcc, dBlind]).errors := by
  have h := c6_failure_isolation envIT opts0 "aa11" [] [dPico3] [dBlind] dOcc
    (by decide)
    (by
      intro d hd
      rcases hd with hd | hd <;> rw [List.mem_singleton] at hd <;> subst hd <;> decide)
    (by decide)
    (by
      intro d hd
      rw [List.mem_singleton] at hd
      subst hd
      decide)
    (by
      intro d hd
      rw [List.mem_singleton] at hd
      subst hd
      decide)
  exact ⟨⟨by decide, by decide, by decide⟩, h.1, h.2.2.1⟩

/-- Claim C7: a discovered bridge that is neither already connected nor has a
    credential entry makes handleBridgeDiscovery throw (it is not silently
    skipped), registers no connection in the BridgeConnectionRegistry and
    triggers no reconciliation. -/
theorem c7_no_credentials_throws (secrets : List (String × BridgeAuthEntry))
    (registry : List String) (b : BridgeNetInfo)
    (hreg : registry.contains b.bridgeid.toLower = false)
    (hsec : hasKey secrets b.bridgeid.toLower = false) :
    (handleBridgeDiscovery secrets registry b).thrown =
      some ("no credentials for bridge ID " ++ b.bridgeid)
    ∧ (handleBridgeDiscovery secrets registry b).registry = registry
    ∧ (handleBridgeDiscovery secrets registry b).registry.contains b.bridgeid.toLower = false
    ∧ (handleBridgeDiscovery secrets registry b).reconcileTriggered = none := by
  have hmem : b.bridgeid.toLower ∉ registry := by
    simpa using hreg
  unfold handleBridgeDiscovery
  simp [hmem, hsec]

/-- Witness for Claim C7: bridge BB22 discovered with no credential entry. -/
theorem c7_witness :
    (([] : List String).contains (BridgeNetInfo.bridgeid ⟨"BB22", "10.0.0.2"⟩).toLower = false
      ∧ hasKey ([] : List (String × BridgeAuthEntry))
          (BridgeNetInfo.bridgeid ⟨"BB22", "10.0.0.2"⟩).toLower = false)
    ∧ (handleBridgeDiscovery [] [] ⟨"BB22", "10.0.0.2"⟩).thrown =
        some ("no credentials for bridge ID " ++ BridgeNetInfo.bridgeid ⟨"BB22", "10.0.0.2"⟩)
    ∧ (handleBridgeDiscovery [] [] ⟨"BB22", "10.0.0.2"⟩).registry.contains
        (BridgeNetInfo.bridgeid ⟨"BB22", "10.0.0.2"⟩).toLower = false := by
  have h := c7_no_credentials_throws [] [] ⟨"BB22", "10.0.0.2"⟩ (by decide) (by decide)
  exact ⟨⟨by decide, by decide⟩, h.1, h.2.2.1⟩

/-- Claim C8: registration atomicity.  For a device not yet indexed that
    reaches the registration step, a throwing registration call is caught and
    logged and the device is not inserted (so it stays eligible for a future
    pass), and conversely the index gains the uuid only when the registration
    call succeeds. -/
theorem c8_registration_atomicity (env : Env) (opts : GlobalOptions) (bid : String)
    (acc : AccessoryIndex) (d : DeviceDefinition)
    (hk : hasKey acc (env.genUuid d.SerialNumber) = false) :
    (reachesRegistration env opts d = true →
      env.registerOk (env.genUuid d.SerialNumber) = false →
      pdIndex env opts bid acc d = acc
      ∧ ("Could not register " ++ d.DeviceType ++ " named " ++
          String.intercalate " " d.FullyQualifiedName ++ " with uuid " ++
          env.genUuid d.SerialNumber) ∈ (pdEffects env opts bid acc d).errors
      ∧ hasKey (pdIndex env opts bid acc d) (env.genUuid d.SerialNumber) = false)
    ∧ (hasKey (pdIndex env opts bid acc d) (env.genUuid d.SerialNumber) = true →
      env.registerOk (env.genUuid d.SerialNumber) = true) := by
  constructor
  · intro hreach hro
    have hins : inserts env opts d = false := by
      simp [inserts, hreach, hro]
    have hidx : pdIndex env opts bid acc d = acc := by
      rw [pdIndex_eq]
      simp [hins]
    refine ⟨hidx, ?_, by rw [hidx]; exact hk⟩
    rw [pdErrors_eq]
    simp [hk, hreach, hro]
  · intro hmem
    by_contra hro
    have hro2 : env.registerOk (env.genUuid d.SerialNumber) = false := by
      simpa using hro
    have hins : inserts env opts d = false := by
      simp [inserts, hro2]
    rw [pdIndex_eq] at hmem
    simp [hins, hk] at hmem

/-- Witness for Claim C8: a Pico whose registration call throws is not
    inserted. -/
theorem c8_witness :
    (hasKey ([] : AccessoryIndex) (envRF.genUuid dPico3.SerialNumber) = false
      ∧ reachesRegistration envRF opts0 dPico3 = true
      ∧ envRF.registerOk (envRF.genUuid dPico3.SerialNumber) = false)
    ∧ pdIndex envRF opts0 "aa11" [] dPico3 = [] :=
  ⟨⟨by decide, by decide, by decide⟩,
   ((c8_registration_atomicity envRF opts0 "aa11" [] dPico3 (by decide)).1
      (by decide) (by decide)).1⟩

/-- Claim C9: with an empty credential store the constructor warns and
    returns before subscribing to the finished-launching signal, so no
    BridgeFinder is ever created and beginSearching is never called, even
    when the launch event fires. -/
theorem c9_empty_secrets_inert (cfgSecrets : List BridgeAuthEntry) (launchFires : Bool)
    (h : secretsFromConfig cfgSecrets = []) :
    (startup cfgSecrets launchFires).warns = ["No bridge auth configured. Retiring."]
    ∧ (startup cfgSecrets launchFires).subscribedDidFinishLaunching = false
    ∧ (startup cfgSecrets launchFires).finderCreated = false
    ∧ (startup cfgSecrets launchFires).beginSearchingCalled = false := by
  unfold startup
  simp [h]

/-- Witness for Claim C9 at the empty configuration. -/
theorem c9_witness :
    secretsFromConfig [] = []
    ∧ ((startup [] true).warns = ["No bridge auth configured. Retiring."]
       ∧ (startup [] true).beginSearchingCalled = false) := by
  have h := c9_empty_secrets_inert [] true rfl
  exact ⟨rfl, h.1, h.2.2.2⟩

def aOcc : PlatformAccessory :=
  { name := "Hall Sensor", UUID := "66666"
    context_device := dOcc
    context_bridgeID := "aa11" }

/-- Claim C10 counterexample: the filtered blind is not the only non-insertion
    path of configureAccessory.  A cached occupancy sensor whose handler
    constructor throws escapes before the accessories.set line (platform.ts
    line 193) and is not inserted, although it is not a blind and blinds are
    not filtered. -/
theorem c10_counterexample :
    opts0.filterBlinds = false
    ∧ aOcc.context_device.DeviceType ≠ "SerenaTiltOnlyWoodBlind"
    ∧ envT.ctorThrows aOcc.context_device = true
    ∧ hasKey (caIndex envT opts0 [] aOcc) aOcc.UUID = false := by
  refine ⟨rfl, by decide, by decide, by decide⟩

/-- Claim C10 (amended): for every restored accessory whose per-type handler
    construction does not throw, configureAccessory inserts it into the
    AccessoryIndex regardless of whether its persisted deviceType is
    recognized (an unrecognized type is warned about but still inserted),
    with exactly one exception: a cached tilt-only blind while filterBlinds
    is true returns early and is not inserted.  A throwing handler
    constructor is a second non-insertion path, shown by the counterexample,
    which is why the no-throw hypothesis is needed. -/
theorem c10_restore_insertion (env : Env) (opts : GlobalOptions)
    (acc : AccessoryIndex) (a : PlatformAccessory)
    (hnothrow : env.ctorThrows a.context_device = false) :
    (a.context_device.DeviceType = "SerenaTiltOnlyWoodBlind" → opts.filterBlinds = true →
      configureAccessory env opts acc a =
        .ok { infos := ["Restoring cached " ++ a.context_device.DeviceType ++ " " ++ a.UUID ++
                        " on bridge " ++ a.context_bridgeID]
              warns := ["Serena wood blinds support disabled. Skipping " ++
                        String.intercalate " " a.context_device.FullyQualifiedName] } acc)
    ∧ (¬(a.context_device.DeviceType = "SerenaTiltOnlyWoodBlind" ∧ opts.filterBlinds = true) →
      caIndex env opts acc a = setKey acc a.UUID a
      ∧ hasKey (caIndex env opts acc a) a.UUID = true)
    ∧ (restoreRecognized a.context_device.DeviceType = false →
      (caEffects env opts acc a).warns =
        ["Accessory " ++ String.intercalate " " a.context_device.FullyQualifiedName ++
         " was cached but is not supported. Did you downgrade?"]) := by
  refine ⟨?_, ?_, ?_⟩
  · intro hdt hf
    unfold configureAccessory
    simp [hdt, hf]
  · intro h
    have hmain : caIndex env opts acc a = setKey acc a.UUID a := by
      simp only [caIndex, configureAccessory]
      generalize hgen : a.context_device.DeviceType = ty at h ⊢
      split <;> rename_i heq <;> (repeat' split at heq) <;>
        (try obtain ⟨heq1, heq2⟩ := heq) <;> (try subst heq1) <;> (try subst heq2) <;>
        (try subst heq) <;> simp_all
    refine ⟨hmain, ?_⟩
    rw [hmain, hasKey_setKey]
    simp
  · intro hur
    simp only [caEffects, configureAccessory]
    generalize hgen : a.context_device.DeviceType = ty at hur ⊢
    split <;> rename_i heq <;> (repeat' split at heq) <;>
      (try obtain ⟨heq1, heq2⟩ := heq) <;> (try subst heq1) <;> (try subst heq2) <;>
      (try subst heq) <;> simp_all [restoreRecognized, isPicoType]

def aWall : PlatformAccessory :=
  { name := "Hall Switch", UUID := "77777"
    context_device := { DeviceType := "WallSwitch", SerialNumber := "77777"
                        FullyQualifiedName := ["Hall", "Switch"] }
    context_bridgeID := "aa11" }

/-- Witness for Claim C10: a cached WallSwitch accessory is not recognized by
    the restore switch but is warned about and still inserted. -/
theorem c10_witness :
    (env0.ctorThrows aWall.context_device = false
      ∧ restoreRecognized aWall.context_device.DeviceType = false)
    ∧ caIndex env0 opts0 [] aWall = setKey [] aWall.UUID aWall
    ∧ (caEffects env0 opts0 [] aWall).warns =
        ["Accessory " ++ String.intercalate " " aWall.context_device.FullyQualifiedName ++
         " was cached but is not supported. Did you downgrade?"] := by
  have h := c10_restore_insertion env0 opts0 [] aWall (by decide)
  exact ⟨⟨by decide, by decide⟩, (h.2.1 (by decide)).1, h.2.2 (by decide)⟩
